import Mathlib

/-!
Shallow embedding of `twistbonjour.py`, which integrates Apple Bonjour
(DNS-SD) service discovery with the Twisted reactor.

External collaborators (the `pybonjour` library and the reactor) are
modelled by an explicit trace of `Effect` values emitted by each
operation.  A discovery session handle (`sdRef`) is a natural-number
identifier; its underlying file descriptor is the identifier itself.
A Python attribute that a constructor leaves unset, or that the code
sets to `None`, is modelled as `Option.none`; reading an attribute of
`None` (for example `None.fileno()`) raises `AttributeError`, modelled
by `Except.error PyError.attributeError`.  The library call
`DNSServiceProcessResult` is modelled as returning a status code `ret`
supplied by the environment, matching the binding `ret = ...` in the
source, which captures and then discards a return value.
-/

/-- A pybonjour session handle (`sdRef`); its file descriptor equals the id. -/
abbrev SDRef := Nat

/-- Python exception outcomes reachable in this code. -/
inductive PyError where
  | attributeError
deriving DecidableEq, Repr

/-- Constant `pybonjour.kDNSServiceErr_NoError`. -/
def kDNSServiceErr_NoError : Int := 0

/-- Constant `pybonjour.kDNSServiceFlagsAdd` (bit 0x2). -/
def kDNSServiceFlagsAdd : Nat := 2

/-- `BonjourDescriptor`: wraps a session handle for reactor registration.
`none` is the closed sentinel written by `connectionLost`
(`self.sdRef = None` in the source). -/
structure BonjourDescriptor where
  sdRef : Option SDRef
deriving DecidableEq, Repr

/-- Observable interactions with the pybonjour library, the reactor and
the Twisted log, in the order the source performs them. -/
inductive Effect where
  | registerService (name regtype domain : String) (port : Nat)
  | browseService (regtype domain : String)
  | resolveService (name regtype domain : String)
  | processResult (s : SDRef)
  | closeSession (s : SDRef)
  | addReader (d : BonjourDescriptor)
  | removeReader (d : BonjourDescriptor)
  | logMsg (m : String)
  | logErr (m : String)
  | serviceRemoved (serviceName regtype replyDomain : String)
  | newResolver (serviceName regtype : String)
  | basePBServerFactory (root : Nat) (unsafeTracebacks : Bool)
deriving DecidableEq, Repr

/-- Is the effect a log line (either `log.msg` or `log.err`)? -/
def Effect.isLog : Effect → Bool
  | Effect.logMsg _ => true
  | Effect.logErr _ => true
  | _ => false

/-- Is the effect an invocation of the removal path (`serviceRemovedCallback`)? -/
def Effect.isServiceRemoved : Effect → Bool
  | Effect.serviceRemoved _ _ _ => true
  | _ => false

/-- Is the effect the construction of a new `BonjourResolver`? -/
def Effect.isNewResolver : Effect → Bool
  | Effect.newResolver _ _ => true
  | _ => false

/-- Is the effect a `close()` of a session handle? -/
def Effect.isCloseSession : Effect → Bool
  | Effect.closeSession _ => true
  | _ => false

/-- Is the effect an operation on a session handle (process or close)? -/
def Effect.isSessionOp : Effect → Bool
  | Effect.processResult _ => true
  | Effect.closeSession _ => true
  | _ => false

/-- `BonjourDescriptor.fileno`: `return self.sdRef.fileno()`.  On a closed
descriptor this dereferences `None` and raises `AttributeError`. -/
def BonjourDescriptor.fileno (d : BonjourDescriptor) : Except PyError Nat :=
  match d.sdRef with
  | some s => Except.ok s
  | none => Except.error PyError.attributeError

/-- `BonjourDescriptor.doRead`: `ret = pybonjour.DNSServiceProcessResult(self.sdRef)`.
The environment-supplied status `ret` is bound and then discarded by the
source, so it does not influence the result.  On a closed descriptor the
library call dereferences `None` and raises. -/
def BonjourDescriptor.doRead (d : BonjourDescriptor) (ret : Int) :
    Except PyError (BonjourDescriptor × List Effect) :=
  match d.sdRef with
  | some s =>
    let _ := ret
    Except.ok (d, [Effect.processResult s])
  | none => Except.error PyError.attributeError

/-- `BonjourDescriptor.connectionLost`: logs, then closes the session and
sets the handle to the closed sentinel unless already closed. -/
def BonjourDescriptor.connectionLost (d : BonjourDescriptor) :
    BonjourDescriptor × List Effect :=
  match d.sdRef with
  | some s =>
    (BonjourDescriptor.mk none,
     [Effect.logMsg ("Stopping Bonjour Advertisement"), Effect.closeSession s])
  | none =>
    (BonjourDescriptor.mk none, [Effect.logMsg ("Stopping Bonjour Advertisement")])

/-- `BonjourAdvertiser`: advertises a service.  Collaborator objects
(`reactor`, `callback`, `context`) are opaque identifiers.  `bonjourDesc`
is `none` while the attribute is still unset (the constructor does not
assign it; only `startAdvertising` does). -/
structure BonjourAdvertiser where
  name : String
  regtype : String
  domain : String
  port : Nat
  reactor : Nat
  callback : Nat
  flags : Nat
  interfaceIndex : Nat
  host : String
  txtLen : Nat
  txtRecord : Option String
  context : Option Nat
  sdRef : Option SDRef
  bonjourDesc : Option BonjourDescriptor
deriving DecidableEq, Repr

/-- `BonjourAdvertiser.__init__` with the source defaults
(`flags=0, interfaceIndex=0, domain="local", host="", txtLen=0,
txtRecord=None, context=None`); `sdRef` is set to `None` and
`bonjourDesc` is left unset. -/
def BonjourAdvertiser.init (name regtype : String) (port : Nat)
    (callback reactor : Nat) : BonjourAdvertiser :=
  { name := name, regtype := regtype, domain := ("local"), port := port,
    reactor := reactor, callback := callback, flags := 0, interfaceIndex := 0,
    host := (""), txtLen := 0, txtRecord := none, context := none,
    sdRef := none, bonjourDesc := none }

/-- `BonjourAdvertiser.startAdvertising`: registers the service with the
library (the environment supplies the fresh session `newSession`), wraps
it in a descriptor, registers the descriptor with the reactor, and
overwrites `self.sdRef` and `self.bonjourDesc`.  The previous session, if
any, is never closed. -/
def BonjourAdvertiser.startAdvertising (a : BonjourAdvertiser)
    (newSession : SDRef) : BonjourAdvertiser × List Effect :=
  let d : BonjourDescriptor := BonjourDescriptor.mk (some newSession)
  ({ a with sdRef := some newSession, bonjourDesc := some d },
   [Effect.registerService a.name a.regtype a.domain a.port, Effect.addReader d])

/-- `BonjourAdvertiser.stopAdvertising`: removes `self.bonjourDesc` from
the reactor (raising `AttributeError` when the attribute was never set),
then closes the session unless `self.sdRef` is already `None`. -/
def BonjourAdvertiser.stopAdvertising (a : BonjourAdvertiser) :
    Except PyError (BonjourAdvertiser × List Effect) :=
  match a.bonjourDesc with
  | none => Except.error PyError.attributeError
  | some d =>
    match a.sdRef with
    | some s =>
      Except.ok ({ a with sdRef := none },
                 [Effect.removeReader d, Effect.closeSession s])
    | none => Except.ok (a, [Effect.removeReader d])

/-- `BonjourResolver`: resolves one discovered instance to host/port. -/
structure BonjourResolver where
  sdRef : Option SDRef
  name : String
  regtype : String
  domain : String
  reactor : Nat
  callback : Nat
  flags : Nat
  interfaceIndex : Nat
  bonjourDesc : Option BonjourDescriptor
deriving DecidableEq, Repr

/-- `BonjourResolver.startResolving`: starts resolution with the library
(fresh session from the environment), wraps it in a descriptor and
registers the descriptor with the reactor. -/
def BonjourResolver.startResolving (r : BonjourResolver)
    (newSession : SDRef) : BonjourResolver × List Effect :=
  let d : BonjourDescriptor := BonjourDescriptor.mk (some newSession)
  ({ r with sdRef := some newSession, bonjourDesc := some d },
   [Effect.resolveService r.name r.regtype r.domain, Effect.addReader d])

/-- `BonjourBrowser`: watches for instances of a service type.
`resolvers` is initialised to the empty list and, because the source
comments out `self.resolvers.append(res)`, is never modified. -/
structure BonjourBrowser where
  sdRef : Option SDRef
  regtype : String
  domain : String
  reactor : Nat
  resolveCallback : Nat
  flags : Nat
  interfaceIndex : Nat
  context : Option Nat
  resolvers : List BonjourResolver
  bonjourDesc : Option BonjourDescriptor
deriving DecidableEq, Repr

/-- `BonjourBrowser.serviceRemovedCallback`: only logs. -/
def BonjourBrowser.serviceRemovedCallback (b : BonjourBrowser)
    (serviceName regtype replyDomain : String) : List Effect :=
  let _ := b
  let _ := serviceName
  let _ := regtype
  let _ := replyDomain
  [Effect.logMsg ("Service Removed")]

/-- `BonjourBrowser.browseCallback`: on nonzero error code, log and
return; if the add flag is absent, invoke the removal path and return;
otherwise construct a new `BonjourResolver` for the instance (passing the
Browser resolve callback and reactor) and immediately start it.  The
fresh resolve session is supplied by the environment.  The append of the
resolver to `self.resolvers` is commented out in the source, so the
Browser state is never changed. -/
def BonjourBrowser.browseCallback (b : BonjourBrowser)
    (flags interfaceIndex : Nat) (errorCode : Int)
    (serviceName regtype replyDomain : String) (newSession : SDRef) :
    BonjourBrowser × List Effect :=
  if errorCode ≠ kDNSServiceErr_NoError then
    (b, [Effect.logErr (("Bonjour error: ") ++ toString errorCode)])
  else if flags &&& kDNSServiceFlagsAdd = 0 then
    (b, Effect.serviceRemoved serviceName regtype replyDomain ::
        b.serviceRemovedCallback serviceName regtype replyDomain)
  else
    let res : BonjourResolver :=
      { sdRef := none, name := serviceName, regtype := regtype,
        domain := replyDomain, reactor := b.reactor,
        callback := b.resolveCallback, flags := flags,
        interfaceIndex := interfaceIndex, bonjourDesc := none }
    let started := res.startResolving newSession
    (b, Effect.newResolver serviceName regtype :: started.2)

/-- `PBServerFactoryBonjour`: the `root` and `unsafeTracebacks` fields
record what the base `PBServerFactory` initialiser would have stored on
the instance; `none` means the attribute was never set on the constructed
object. -/
structure PBServerFactoryBonjour where
  root : Option Nat
  unsafeTracebacks : Option Bool
  serviceName : String
  serviceType : String
  servicePort : Nat
deriving DecidableEq, Repr

/-- `PBServerFactoryBonjour.__init__`: the source writes
`pb.PBServerFactory(root, unsafeTracebacks)` as a bare call, constructing
a fresh, immediately discarded base factory instead of initialising the
base class on `self`; only the three service fields are then stored. -/
def PBServerFactoryBonjour.init (root : Nat)
    (serviceName serviceType : String) (servicePort : Nat)
    (unsafeTracebacks : Bool) : PBServerFactoryBonjour × List Effect :=
  ({ root := none, unsafeTracebacks := none, serviceName := serviceName,
     serviceType := serviceType, servicePort := servicePort },
   [Effect.basePBServerFactory root unsafeTracebacks])

/-- A concrete browser used to exercise the browse callback. -/
def browser0 : BonjourBrowser :=
  { sdRef := some 3, regtype := ("_echo._tcp"), domain := ("local"),
    reactor := 0, resolveCallback := 0, flags := 0, interfaceIndex := 0,
    context := none, resolvers := [],
    bonjourDesc := some (BonjourDescriptor.mk (some 3)) }

/-- A concrete open descriptor used to exercise `doRead`. -/
def descriptor0 : BonjourDescriptor := BonjourDescriptor.mk (some 7)

/-- C1 counterexample: the claim says the removal path fires whenever the
add flag is absent, irrespective of the error code; but at flags = 0
(add absent) with error code -65537 the callback returns at the error
check and the removal path is never invoked. -/
theorem browse_removal_despite_error_counterexample :
    (0 &&& kDNSServiceFlagsAdd = 0) ∧
    ((browser0.browseCallback 0 0 (-65537) ("svcA") ("_echo._tcp") ("local")
        9).2.any Effect.isServiceRemoved) = false := by
  exact ⟨rfl, rfl⟩

/-- C1 (amended): for every browse-callback invocation, the removal path
(`serviceRemovedCallback`) is invoked if and only if the error code is 0
AND the add flag is absent; a nonzero error code suppresses the removal
path because the callback returns at the error check first. -/
theorem browse_removal_iff_noerror_and_add_absent (b : BonjourBrowser)
    (flags interfaceIndex : Nat) (errorCode : Int)
    (serviceName regtype replyDomain : String) (newSession : SDRef) :
    ((b.browseCallback flags interfaceIndex errorCode serviceName regtype
        replyDomain newSession).2.any Effect.isServiceRemoved) = true ↔
      (errorCode = kDNSServiceErr_NoError ∧
       flags &&& kDNSServiceFlagsAdd = 0) := by
  by_cases hec : errorCode = kDNSServiceErr_NoError
  · by_cases hadd : flags &&& kDNSServiceFlagsAdd = 0
    · simp [BonjourBrowser.browseCallback, hec, hadd,
            BonjourBrowser.serviceRemovedCallback, Effect.isServiceRemoved]
    · simp [BonjourBrowser.browseCallback, hec, hadd,
            BonjourResolver.startResolving, Effect.isServiceRemoved]
  · simp [BonjourBrowser.browseCallback, hec, Effect.isServiceRemoved]

/-- C2 counterexample: the claim says a failing process call is recorded
in a log message; but on a failing status (-65537) `doRead` returns
normally with a trace containing no log entry at all. -/
theorem doRead_failure_unlogged_counterexample :
    descriptor0.doRead (-65537) =
      Except.ok (descriptor0, [Effect.processResult 7]) ∧
    Except.map (fun p => p.2.any Effect.isLog) (descriptor0.doRead (-65537)) =
      Except.ok false := by
  exact ⟨rfl, rfl⟩

/-- C2 (amended): on a readiness notification whose process call fails,
`doRead` silently discards the failure: no exception reaches the event
loop, the session is not closed (state unchanged, handle still open), and
no log message is emitted — the status is bound to `ret` and ignored. -/
theorem doRead_discards_errors (d : BonjourDescriptor) (s : SDRef)
    (ret : Int) (h : d.sdRef = some s) :
    d.doRead ret = Except.ok (d, [Effect.processResult s]) ∧
    Except.map (fun p => p.2.any Effect.isLog) (d.doRead ret) =
      Except.ok false := by
  obtain ⟨sd⟩ := d
  cases sd with
  | none => cases h
  | some t =>
    injection h with h
    subst h
    exact ⟨rfl, rfl⟩

/-- C2 witness at a concrete open descriptor and failing status. -/
theorem doRead_discards_errors_witness :
    (BonjourDescriptor.mk (some 4)).doRead (-42) =
      Except.ok (BonjourDescriptor.mk (some 4), [Effect.processResult 4]) ∧
    Except.map (fun p => p.2.any Effect.isLog)
        ((BonjourDescriptor.mk (some 4)).doRead (-42)) =
      Except.ok false :=
  doRead_discards_errors (BonjourDescriptor.mk (some 4)) 4 (-42) rfl

/-- C3: teardown is idempotent.  After `startAdvertising`, a first
`stopAdvertising` succeeds; a second `stopAdvertising` also succeeds
(no raise), leaves the state unchanged and performs no second `close()`.
Likewise a repeated `connectionLost` only logs: the first call set the
handle to the closed sentinel, so the second closes nothing and leaves
the descriptor unchanged. -/
theorem teardown_idempotent (a : BonjourAdvertiser) (s : SDRef) :
    (∃ p, ((a.startAdvertising s).1).stopAdvertising = Except.ok p ∧
       ∃ q, p.1.stopAdvertising = Except.ok q ∧ q.1 = p.1 ∧
         q.2.any Effect.isCloseSession = false) ∧
    (∀ d : BonjourDescriptor,
       ((d.connectionLost).1).connectionLost =
         ((d.connectionLost).1,
          [Effect.logMsg ("Stopping Bonjour Advertisement")])) := by
  constructor
  · exact ⟨_, rfl, _, rfl, rfl, rfl⟩
  · intro d
    obtain ⟨sd⟩ := d
    cases sd <;> rfl

/-- C4: `stopAdvertising` on a freshly constructed advertiser (no prior
`startAdvertising`) raises, because `self.bonjourDesc` was never set and
`removeReader(self.bonjourDesc)` hits the missing attribute. -/
theorem stopAdvertising_before_start_raises (name regtype : String)
    (port callback reactor : Nat) :
    (BonjourAdvertiser.init name regtype port callback
        reactor).stopAdvertising =
      Except.error PyError.attributeError := rfl

/-- C5: a browse callback with the add flag set and error code 0
constructs exactly one new `BonjourResolver` and immediately starts it
(resolve call plus reader registration in the same invocation), and the
Browser retains no reference: its state, in particular the `resolvers`
list, is unchanged. -/
theorem browseCallback_add_spawns_resolver (b : BonjourBrowser)
    (flags interfaceIndex : Nat) (errorCode : Int)
    (serviceName regtype replyDomain : String) (newSession : SDRef)
    (hec : errorCode = kDNSServiceErr_NoError)
    (hadd : flags &&& kDNSServiceFlagsAdd ≠ 0) :
    b.browseCallback flags interfaceIndex errorCode serviceName regtype
        replyDomain newSession =
      (b, [Effect.newResolver serviceName regtype,
           Effect.resolveService serviceName regtype replyDomain,
           Effect.addReader (BonjourDescriptor.mk (some newSession))]) ∧
    ([Effect.newResolver serviceName regtype,
      Effect.resolveService serviceName regtype replyDomain,
      Effect.addReader (BonjourDescriptor.mk (some newSession))]).countP
        Effect.isNewResolver = 1 ∧
    (b.browseCallback flags interfaceIndex errorCode serviceName regtype
        replyDomain newSession).1.resolvers = b.resolvers := by
  subst hec
  have key : b.browseCallback flags interfaceIndex kDNSServiceErr_NoError
      serviceName regtype replyDomain newSession =
      (b, [Effect.newResolver serviceName regtype,
           Effect.resolveService serviceName regtype replyDomain,
           Effect.addReader (BonjourDescriptor.mk (some newSession))]) := by
    simp [BonjourBrowser.browseCallback, hadd, BonjourResolver.startResolving]
  refine ⟨key, rfl, by rw [key]⟩

/-- C5 witness at concrete inputs (flags = 2, the add bit). -/
theorem browseCallback_add_spawns_resolver_witness :
    browser0.browseCallback 2 0 0 ("svcB") ("_echo._tcp") ("local") 11 =
      (browser0, [Effect.newResolver ("svcB") ("_echo._tcp"),
           Effect.resolveService ("svcB") ("_echo._tcp") ("local"),
           Effect.addReader (BonjourDescriptor.mk (some 11))]) ∧
    ([Effect.newResolver ("svcB") ("_echo._tcp"),
      Effect.resolveService ("svcB") ("_echo._tcp") ("local"),
      Effect.addReader (BonjourDescriptor.mk (some 11))]).countP
        Effect.isNewResolver = 1 ∧
    (browser0.browseCallback 2 0 0 ("svcB") ("_echo._tcp") ("local")
        11).1.resolvers = browser0.resolvers :=
  browseCallback_add_spawns_resolver browser0 2 0 0 ("svcB") ("_echo._tcp")
    ("local") 11 rfl (by decide)

/-- C6: a browse callback with a nonzero error code logs the error and
returns with no further effect: the whole trace is that one log line (so
no resolver is constructed, no removal path fires, nothing reaches the
user callback) and the Browser state is unchanged. -/
theorem browseCallback_error_logs_and_discards (b : BonjourBrowser)
    (flags interfaceIndex : Nat) (errorCode : Int)
    (serviceName regtype replyDomain : String) (newSession : SDRef)
    (h : errorCode ≠ kDNSServiceErr_NoError) :
    b.browseCallback flags interfaceIndex errorCode serviceName regtype
        replyDomain newSession =
      (b, [Effect.logErr (("Bonjour error: ") ++ toString errorCode)]) := by
  simp [BonjourBrowser.browseCallback, h]

/-- C6 witness at a concrete nonzero error code. -/
theorem browseCallback_error_witness :
    browser0.browseCallback 0 0 (-65537) ("svcA") ("_echo._tcp") ("local")
        9 =
      (browser0,
       [Effect.logErr (("Bonjour error: ") ++ toString (-65537 : Int))]) :=
  browseCallback_error_logs_and_discards browser0 0 0 (-65537) ("svcA")
    ("_echo._tcp") ("local") 9 (by decide)

/-- C7: calling `startAdvertising` twice without an intervening stop
overwrites the stored session with the new one, never closes the prior
session anywhere in the combined trace, and leaves every other field of
the component unchanged. -/
theorem startAdvertising_twice_leaks (a : BonjourAdvertiser)
    (s1 s2 : SDRef) :
    ((a.startAdvertising s1).1.startAdvertising s2).1.sdRef = some s2 ∧
    (((a.startAdvertising s1).2 ++
        ((a.startAdvertising s1).1.startAdvertising s2).2).any
      Effect.isCloseSession) = false ∧
    ((a.startAdvertising s1).1.startAdvertising s2).1.name = a.name ∧
    ((a.startAdvertising s1).1.startAdvertising s2).1.regtype = a.regtype ∧
    ((a.startAdvertising s1).1.startAdvertising s2).1.domain = a.domain ∧
    ((a.startAdvertising s1).1.startAdvertising s2).1.port = a.port ∧
    ((a.startAdvertising s1).1.startAdvertising s2).1.reactor = a.reactor ∧
    ((a.startAdvertising s1).1.startAdvertising s2).1.callback =
      a.callback ∧
    ((a.startAdvertising s1).1.startAdvertising s2).1.flags = a.flags ∧
    ((a.startAdvertising s1).1.startAdvertising s2).1.interfaceIndex =
      a.interfaceIndex ∧
    ((a.startAdvertising s1).1.startAdvertising s2).1.host = a.host ∧
    ((a.startAdvertising s1).1.startAdvertising s2).1.txtLen = a.txtLen ∧
    ((a.startAdvertising s1).1.startAdvertising s2).1.txtRecord =
      a.txtRecord ∧
    ((a.startAdvertising s1).1.startAdvertising s2).1.context = a.context := by
  exact ⟨rfl, rfl, rfl, rfl, rfl, rfl, rfl, rfl, rfl, rfl, rfl, rfl, rfl,
         rfl⟩

/-- C8: on every readiness notification of an open descriptor, `doRead`
performs the process-pending-result call on its session exactly once and
no other session operation: the trace is exactly that one call, and the
count of session operations in it is one. -/
theorem doRead_processes_exactly_once (d : BonjourDescriptor) (s : SDRef)
    (ret : Int) (h : d.sdRef = some s) :
    Except.map (fun p => p.2) (d.doRead ret) =
      Except.ok ([Effect.processResult s]) ∧
    Except.map (fun p => p.2.countP Effect.isSessionOp) (d.doRead ret) =
      Except.ok 1 := by
  obtain ⟨sd⟩ := d
  cases sd with
  | none => cases h
  | some t =>
    injection h with h
    subst h
    exact ⟨rfl, rfl⟩

/-- C8 witness at a concrete open descriptor. -/
theorem doRead_processes_exactly_once_witness :
    Except.map (fun p => p.2) (descriptor0.doRead 0) =
      Except.ok ([Effect.processResult 7]) ∧
    Except.map (fun p => p.2.countP Effect.isSessionOp)
        (descriptor0.doRead 0) = Except.ok 1 :=
  doRead_processes_exactly_once descriptor0 7 0 rfl

/-- C9: once `connectionLost` has run (setting the handle to the closed
sentinel), both `fileno` and `doRead` raise `AttributeError`, since each
dereferences the now-`None` session handle unguarded. -/
theorem closed_descriptor_raises (d : BonjourDescriptor) (ret : Int) :
    ((d.connectionLost).1).fileno = Except.error PyError.attributeError ∧
    ((d.connectionLost).1).doRead ret =
      Except.error PyError.attributeError := by
  obtain ⟨sd⟩ := d
  cases sd <;> exact ⟨rfl, rfl⟩

/-- C10: the constructor of `PBServerFactoryBonjour` never initialises
the base `PBServerFactory` on the instance — the bare base-constructor
call builds a fresh object that is immediately discarded — so `root` (and
`unsafeTracebacks`) are not stored on the constructed object, and only
`serviceName`, `serviceType` and `servicePort` are set. -/
theorem pbServerFactoryBonjour_init_skips_base (root : Nat)
    (serviceName serviceType : String) (servicePort : Nat)
    (unsafeTracebacks : Bool) :
    (PBServerFactoryBonjour.init root serviceName serviceType servicePort
        unsafeTracebacks).1.root = none ∧
    (PBServerFactoryBonjour.init root serviceName serviceType servicePort
        unsafeTracebacks).1.unsafeTracebacks = none ∧
    (PBServerFactoryBonjour.init root serviceName serviceType servicePort
        unsafeTracebacks).1.serviceName = serviceName ∧
    (PBServerFactoryBonjour.init root serviceName serviceType servicePort
        unsafeTracebacks).1.serviceType = serviceType ∧
    (PBServerFactoryBonjour.init root serviceName serviceType servicePort
        unsafeTracebacks).1.servicePort = servicePort ∧
    (PBServerFactoryBonjour.init root serviceName serviceType servicePort
        unsafeTracebacks).2 =
      [Effect.basePBServerFactory root unsafeTracebacks] := by
  exact ⟨rfl, rfl, rfl, rfl, rfl, rfl⟩
